import Mathlib

/-!
Verification of the PromptWars turn-resolution and game-state code.

The definitions below are a shallow embedding of the relevant JavaScript
sources: the Zustand game store (`useGameStore`), the turn-submission
orchestrator `handlePromptSubmit` of `GameContainer.jsx`, and the submit
guard of `PromptInput.jsx`.  Store actions become pure functions from a
`GameState` to a `GameState`; the two fallible HTTP calls made during a
turn (`submitBattle`, `drawHand`) are passed in as `Except` values, with
`Except.error` standing for a rejected promise.  The Elo rating service is
implemented in the backend, which is not among the available frontend
sources, so it is modelled from the specification's formula (see
`expectedScore` / `updateRatings` below).
-/

namespace PromptWars

/-- A card object as returned by the cards API (`id`, `name`, plus display
metadata that the game logic never inspects). -/
structure Card where
  id : String
  name : String
  category : String
  description : String
deriving Repr, DecidableEq

/-- Player slice of the store: `player` / `opponent` objects of
`useGameStore` (id, username, hp, hand, elo_rating). -/
structure Player where
  id : Option String
  username : Option String
  hp : Int
  hand : List Card
  elo_rating : Int
deriving Repr, DecidableEq

/-- The judge verdict as consumed by `handlePromptSubmit`: `winner_id` is
`'player_1'`, `'player_2'`, another string, or `null` (modelled as
`none`); `damage_dealt` is the damage number.  Narrative fields are kept
as one string since the game logic never branches on them. -/
structure BattleResult where
  winner_id : Option String
  damage_dealt : Int
  reasoning : String
deriving Repr, DecidableEq

/-- An entry of `battleHistory`: the spread battle result plus the `turn`
field computed as `battleHistory.length + 1` at append time. -/
structure BattleRecord where
  result : BattleResult
  turn : Nat
deriving Repr, DecidableEq

/-- The full Zustand store state of `useGameStore` (part_001). -/
structure GameState where
  gameId : Option String
  gameStatus : String
  currentTurn : Nat
  player : Player
  opponent : Player
  myPrompt : String
  mySelectedCards : List String
  hasSubmitted : Bool
  opponentHasSubmitted : Bool
  battleHistory : List BattleRecord
  isLoading : Bool
  errorMsg : Option String
  allCards : List Card
deriving Repr, DecidableEq

/-- `Math.max(0, Math.min(100, hp))`, the clamp used by `updatePlayerHP`
and `updateOpponentHP`. -/
def clampHP (hp : Int) : Int :=
  max 0 (min 100 hp)

/-- Store action `updatePlayerHP` (part_001 lines 91-97). -/
def updatePlayerHP (s : GameState) (hp : Int) : GameState :=
  { s with player := { s.player with hp := clampHP hp } }

/-- Store action `updateOpponentHP` (part_001 lines 99-105). -/
def updateOpponentHP (s : GameState) (hp : Int) : GameState :=
  { s with opponent := { s.opponent with hp := clampHP hp } }

/-- The list-level computation inside `toggleCardSelection`: remove the id
(`filter(id => id !== cardId)`) when present (`includes`), append it
otherwise. -/
def toggleCard (cards : List String) (cardId : String) : List String :=
  if cards.contains cardId then
    cards.filter (fun id => id != cardId)
  else
    cards ++ [cardId]

/-- Store action `toggleCardSelection` (part_001 lines 68-75). -/
def toggleCardSelection (s : GameState) (cardId : String) : GameState :=
  { s with mySelectedCards := toggleCard s.mySelectedCards cardId }

/-- Store action `addBattleResult` (part_001 lines 81-83): append to the
battle history. -/
def addBattleResult (s : GameState) (r : BattleRecord) : GameState :=
  { s with battleHistory := s.battleHistory ++ [r] }

/-- Store action `incrementTurn` (part_001 lines 107-113). -/
def incrementTurn (s : GameState) : GameState :=
  { s with
    currentTurn := s.currentTurn + 1
    myPrompt := ""
    mySelectedCards := []
    hasSubmitted := false
    opponentHasSubmitted := false }

/-- Store action `setHasSubmitted`. -/
def setHasSubmitted (s : GameState) (b : Bool) : GameState :=
  { s with hasSubmitted := b }

/-- Store action `setLoading`. -/
def setLoading (s : GameState) (b : Bool) : GameState :=
  { s with isLoading := b }

/-- Store action `setError`. -/
def setError (s : GameState) (e : Option String) : GameState :=
  { s with errorMsg := e }

/-- Store action `setPlayerHand`. -/
def setPlayerHand (s : GameState) (hand : List Card) : GameState :=
  { s with player := { s.player with hand := hand } }

/-- Store action `setGameStatus` (part_001 line 50).  Declared by the
store; the turn-submission path of `GameContainer.jsx` never invokes it. -/
def setGameStatus (s : GameState) (status : String) : GameState :=
  { s with gameStatus := status }

/-- The verdict-application block of `handlePromptSubmit`
(GameContainer.jsx lines 88-102): `winner_id === 'player_1'` damages the
opponent, `winner_id === 'player_2'` damages the player, anything else
falls to the tie branch and changes no hp. -/
def applyVerdict (s : GameState) (result : BattleResult) : GameState :=
  if result.winner_id = some "player_1" then
    updateOpponentHP s (s.opponent.hp - result.damage_dealt)
  else if result.winner_id = some "player_2" then
    updatePlayerHP s (s.player.hp - result.damage_dealt)
  else
    s

/-- Embedding of `handlePromptSubmit` (GameContainer.jsx lines 62-118).
`oracle` is the outcome of the awaited `submitBattle` call and `newHand`
the outcome of the subsequent `drawHand` call; `Except.error` models a
rejected promise, which transfers control to the `catch` block (setError,
setLoading(false), setHasSubmitted(false)). -/
def handlePromptSubmit (s : GameState)
    (oracle : Except String BattleResult)
    (newHand : Except String (List Card)) : GameState :=
  let s1 := setHasSubmitted (setLoading s true) true
  match oracle with
  | .error e =>
      setHasSubmitted
        (setLoading
          (setError s1 (some ("Failed to submit battle: " ++ e ++
            ". Please try again or reset the game."))) false) false
  | .ok result =>
      let s2 := addBattleResult s1 ⟨result, s1.battleHistory.length + 1⟩
      let s3 := applyVerdict s2 result
      match newHand with
      | .error e =>
          setHasSubmitted
            (setLoading
              (setError s3 (some ("Failed to submit battle: " ++ e ++
                ". Please try again or reset the game."))) false) false
      | .ok hand =>
          setLoading (incrementTurn (setPlayerHand s3 hand)) false

/-- JavaScript `String.prototype.trim`, embedded on the character list:
whitespace dropped from both ends. -/
def jsTrim (s : String) : String :=
  String.mk (((s.data.dropWhile Char.isWhitespace).reverse.dropWhile
    Char.isWhitespace).reverse)

/-- The `handleSubmit` guard of `PromptInput.jsx` (lines 19-23): `onSubmit`
fires only when the trimmed prompt is truthy and at least one card is
selected. -/
def handleSubmitFires (value : String) (selectedCards : List String) : Bool :=
  jsTrim value != "" && selectedCards.length > 0

/-- The `canSubmit` flag of `PromptInput.jsx` (line 25) controlling the
CAST button. -/
def canSubmit (value : String) (selectedCards : List String) (disabled : Bool) : Bool :=
  (jsTrim value).length > 0 && selectedCards.length > 0 && !disabled

/-- The submit path as wired in `GameContainer.jsx`: `PromptInput` receives
`value = myPrompt`, `selectedCards = mySelectedCards` and
`onSubmit = handlePromptSubmit`; a click reaches `handlePromptSubmit` only
through the `handleSubmit` guard. -/
def handleSubmit (s : GameState)
    (oracle : Except String BattleResult)
    (newHand : Except String (List Card)) : GameState :=
  if handleSubmitFires s.myPrompt s.mySelectedCards then
    handlePromptSubmit s oracle newHand
  else
    s

/-- `PromptInput.defaultProps.maxLength` (part_009 line 76): the length cap
passed to the textarea attribute. -/
def defaultMaxLength : Nat := 500

/-- A concrete in-battle store state used to instantiate the theorems:
both players at 100 hp, turn 0, game active, a nonempty prompt and one
selected card. -/
def demoState : GameState where
  gameId := some "g1"
  gameStatus := "active"
  currentTurn := 0
  player := ⟨some "p1", some "Alice", 100, [], 1200⟩
  opponent := ⟨some "p2", some "-Bob", 100, [], 1200⟩
  myPrompt := "A fire arrow"
  mySelectedCards := ["fire"]
  hasSubmitted := false
  opponentHasSubmitted := false
  battleHistory := []
  isLoading := false
  errorMsg := none
  allCards := []

/-- A decisive verdict: player 1 wins, 25 damage. -/
def demoVerdict : BattleResult := ⟨some "player_1", 25, "player 1 wins"⟩

/-- A decisive verdict the other way: player 2 wins, 30 damage. -/
def demoVerdict2 : BattleResult := ⟨some "player_2", 30, "player 2 wins"⟩

/-- A tie verdict as delivered by the judge API (`winner_id` null). -/
def tieVerdict : BattleResult := ⟨none, 0, "a draw"⟩

theorem clampHP_nonneg (hp : Int) : 0 ≤ clampHP hp :=
  le_max_left 0 _

theorem clampHP_le_100 (hp : Int) : clampHP hp ≤ 100 :=
  max_le (by norm_num) (min_le_left 100 hp)

theorem clampHP_of_mem (hp : Int) (h0 : 0 ≤ hp) (h1 : hp ≤ 100) : clampHP hp = hp := by
  unfold clampHP
  omega

theorem hps_ok_player_hp (s : GameState) (r : BattleResult)
    (nh : Except String (List Card)) :
    (handlePromptSubmit s (.ok r) nh).player.hp =
      if r.winner_id = some "player_2" then clampHP (s.player.hp - r.damage_dealt)
      else s.player.hp := by
  cases nh <;>
    simp [handlePromptSubmit, setLoading, setHasSubmitted, setError, setPlayerHand,
      incrementTurn, addBattleResult, applyVerdict, updatePlayerHP, updateOpponentHP] <;>
    split_ifs <;> simp_all

theorem hps_ok_opponent_hp (s : GameState) (r : BattleResult)
    (nh : Except String (List Card)) :
    (handlePromptSubmit s (.ok r) nh).opponent.hp =
      if r.winner_id = some "player_1" then clampHP (s.opponent.hp - r.damage_dealt)
      else s.opponent.hp := by
  cases nh <;>
    simp [handlePromptSubmit, setLoading, setHasSubmitted, setError, setPlayerHand,
      incrementTurn, addBattleResult, applyVerdict, updatePlayerHP, updateOpponentHP] <;>
    split_ifs <;> simp_all

theorem hps_ok_battleHistory (s : GameState) (r : BattleResult)
    (nh : Except String (List Card)) :
    (handlePromptSubmit s (.ok r) nh).battleHistory =
      s.battleHistory ++ [⟨r, s.battleHistory.length + 1⟩] := by
  cases nh <;>
    simp [handlePromptSubmit, setLoading, setHasSubmitted, setError, setPlayerHand,
      incrementTurn, addBattleResult, applyVerdict, updatePlayerHP, updateOpponentHP] <;>
    split_ifs <;> simp_all

theorem hps_ok_ok_currentTurn (s : GameState) (r : BattleResult) (hand : List Card) :
    (handlePromptSubmit s (.ok r) (.ok hand)).currentTurn = s.currentTurn + 1 := by
  simp [handlePromptSubmit, setLoading, setHasSubmitted, setError, setPlayerHand,
    incrementTurn, addBattleResult, applyVerdict, updatePlayerHP, updateOpponentHP]
  split_ifs <;> rfl

theorem hps_gameStatus (s : GameState) (oracle : Except String BattleResult)
    (nh : Except String (List Card)) :
    (handlePromptSubmit s oracle nh).gameStatus = s.gameStatus := by
  cases oracle <;> cases nh <;>
    simp [handlePromptSubmit, setLoading, setHasSubmitted, setError, setPlayerHand,
      incrementTurn, addBattleResult, applyVerdict, updatePlayerHP, updateOpponentHP] <;>
    split_ifs <;> simp_all

theorem hps_err_frame (s : GameState) (e : String) (nh : Except String (List Card)) :
    (handlePromptSubmit s (.error e) nh).currentTurn = s.currentTurn ∧
    (handlePromptSubmit s (.error e) nh).battleHistory = s.battleHistory ∧
    (handlePromptSubmit s (.error e) nh).player = s.player ∧
    (handlePromptSubmit s (.error e) nh).opponent = s.opponent ∧
    (handlePromptSubmit s (.error e) nh).myPrompt = s.myPrompt ∧
    (handlePromptSubmit s (.error e) nh).mySelectedCards = s.mySelectedCards ∧
    (handlePromptSubmit s (.error e) nh).hasSubmitted = false ∧
    (handlePromptSubmit s (.error e) nh).isLoading = false := by
  simp [handlePromptSubmit, setLoading, setHasSubmitted, setError]

/-- Claim C1: for every turn resolution, whatever integer damage value the
verdict carries, both players' resulting hp lies in [0, 100]; the HP update
operations `updatePlayerHP` and `updateOpponentHP` clamp any input so hp
never goes below 0 and is never raised above 100. -/
theorem c1_hp_clamp_invariant (s : GameState) (hp hp2 : Int) (r : BattleResult)
    (nh : Except String (List Card))
    (hpl : 0 ≤ s.player.hp) (hpu : s.player.hp ≤ 100)
    (hol : 0 ≤ s.opponent.hp) (hou : s.opponent.hp ≤ 100) :
    (0 ≤ (updatePlayerHP s hp).player.hp ∧ (updatePlayerHP s hp).player.hp ≤ 100) ∧
    (0 ≤ (updateOpponentHP s hp2).opponent.hp ∧
      (updateOpponentHP s hp2).opponent.hp ≤ 100) ∧
    (0 ≤ (handlePromptSubmit s (.ok r) nh).player.hp ∧
      (handlePromptSubmit s (.ok r) nh).player.hp ≤ 100) ∧
    (0 ≤ (handlePromptSubmit s (.ok r) nh).opponent.hp ∧
      (handlePromptSubmit s (.ok r) nh).opponent.hp ≤ 100) := by
  refine ⟨⟨?_, ?_⟩, ⟨?_, ?_⟩, ⟨?_, ?_⟩, ⟨?_, ?_⟩⟩
  · simpa [updatePlayerHP] using clampHP_nonneg hp
  · simpa [updatePlayerHP] using clampHP_le_100 hp
  · simpa [updateOpponentHP] using clampHP_nonneg hp2
  · simpa [updateOpponentHP] using clampHP_le_100 hp2
  · rw [hps_ok_player_hp]
    split_ifs
    · exact clampHP_nonneg _
    · exact hpl
  · rw [hps_ok_player_hp]
    split_ifs
    · exact clampHP_le_100 _
    · exact hpu
  · rw [hps_ok_opponent_hp]
    split_ifs
    · exact clampHP_nonneg _
    · exact hol
  · rw [hps_ok_opponent_hp]
    split_ifs
    · exact clampHP_le_100 _
    · exact hou

/-- Witness for C1 at the concrete demo state and verdict. -/
theorem c1_hp_clamp_invariant_witness :
    0 ≤ (handlePromptSubmit demoState (.ok demoVerdict) (.ok [])).opponent.hp ∧
    (handlePromptSubmit demoState (.ok demoVerdict) (.ok [])).opponent.hp ≤ 100 := by
  have h := c1_hp_clamp_invariant demoState 0 0 demoVerdict (.ok [])
    (by norm_num [demoState]) (by norm_num [demoState])
    (by norm_num [demoState]) (by norm_num [demoState])
  exact h.2.2.2

/-- Claim C2: turn resolution is atomic with respect to oracle failure.
If the `submitBattle` call fails, the turn counter, the battle history,
and both players are unchanged; the per-turn inputs (prompt, selected
cards) are still in place, `hasSubmitted` and `isLoading` are reset, and
a subsequent retry with a successful oracle outcome applies the turn
(turn counter +1, one history entry appended). -/
theorem c2_oracle_failure_atomic (s : GameState) (e : String)
    (nh : Except String (List Card)) :
    ((handlePromptSubmit s (.error e) nh).currentTurn = s.currentTurn ∧
     (handlePromptSubmit s (.error e) nh).battleHistory = s.battleHistory ∧
     (handlePromptSubmit s (.error e) nh).player.hp = s.player.hp ∧
     (handlePromptSubmit s (.error e) nh).opponent.hp = s.opponent.hp ∧
     (handlePromptSubmit s (.error e) nh).myPrompt = s.myPrompt ∧
     (handlePromptSubmit s (.error e) nh).mySelectedCards = s.mySelectedCards ∧
     (handlePromptSubmit s (.error e) nh).hasSubmitted = false ∧
     (handlePromptSubmit s (.error e) nh).isLoading = false) ∧
    (∀ (r : BattleResult) (hand : List Card),
      (handlePromptSubmit (handlePromptSubmit s (.error e) nh)
        (.ok r) (.ok hand)).currentTurn = s.currentTurn + 1 ∧
      (handlePromptSubmit (handlePromptSubmit s (.error e) nh)
        (.ok r) (.ok hand)).battleHistory.length = s.battleHistory.length + 1) := by
  obtain ⟨h1, h2, h3, h4, h5, h6, h7, h8⟩ := hps_err_frame s e nh
  refine ⟨⟨h1, h2, by rw [h3], by rw [h4], h5, h6, h7, h8⟩, ?_⟩
  intro r hand
  constructor
  · rw [hps_ok_ok_currentTurn, h1]
  · rw [hps_ok_battleHistory, h2]
    simp

/-- Claim C3: when the verdict names a decisive winner — either
`'player_1'` or `'player_2'` — exactly the losing player has the damage
subtracted from their hp subject to the clamp, the winner's hp is
unchanged, and the turn counter increases by one. -/
theorem c3_decisive_verdict (s : GameState) (r : BattleResult) (hand : List Card) :
    (handlePromptSubmit s (.ok r) (.ok hand)).currentTurn = s.currentTurn + 1 ∧
    (r.winner_id = some "player_1" →
      (handlePromptSubmit s (.ok r) (.ok hand)).player.hp = s.player.hp ∧
      (handlePromptSubmit s (.ok r) (.ok hand)).opponent.hp =
        clampHP (s.opponent.hp - r.damage_dealt)) ∧
    (r.winner_id = some "player_2" →
      (handlePromptSubmit s (.ok r) (.ok hand)).opponent.hp = s.opponent.hp ∧
      (handlePromptSubmit s (.ok r) (.ok hand)).player.hp =
        clampHP (s.player.hp - r.damage_dealt)) := by
  refine ⟨hps_ok_ok_currentTurn s r hand, ?_, ?_⟩
  · intro h1
    constructor
    · rw [hps_ok_player_hp]
      simp [h1]
    · rw [hps_ok_opponent_hp]
      simp [h1]
  · intro h2
    constructor
    · rw [hps_ok_opponent_hp]
      simp [h2]
    · rw [hps_ok_player_hp]
      simp [h2]

/-- Witness for C3: the spec scenario in both orientations.  Starting from
both players at hp 100 and turn 0, the verdict (winner player 1, damage
25) leaves the player at 100, the opponent at 75 and the turn counter at
1; and the verdict (winner player 2, damage 30) leaves the opponent at
100, the player at 70 and the turn counter at 1. -/
theorem c3_decisive_verdict_witness :
    (handlePromptSubmit demoState (.ok demoVerdict) (.ok [])).currentTurn = 1 ∧
    (handlePromptSubmit demoState (.ok demoVerdict) (.ok [])).player.hp = 100 ∧
    (handlePromptSubmit demoState (.ok demoVerdict) (.ok [])).opponent.hp = 75 ∧
    (handlePromptSubmit demoState (.ok demoVerdict2) (.ok [])).currentTurn = 1 ∧
    (handlePromptSubmit demoState (.ok demoVerdict2) (.ok [])).opponent.hp = 100 ∧
    (handlePromptSubmit demoState (.ok demoVerdict2) (.ok [])).player.hp = 70 := by
  obtain ⟨ht1, hw1, -⟩ := c3_decisive_verdict demoState demoVerdict []
  obtain ⟨ht2, -, hw2⟩ := c3_decisive_verdict demoState demoVerdict2 []
  obtain ⟨ha1, hb1⟩ := hw1 rfl
  obtain ⟨ha2, hb2⟩ := hw2 rfl
  exact ⟨ht1, ha1, hb1.trans (by decide), ht2, ha2, hb2.trans (by decide)⟩

/-- Claim C4: on a tie verdict (`winner_id` null), neither player's hp
changes, the battle record is still appended to the history, the turn
counter still increments, and the match status stays `"active"` when it
was active and both players' hp are positive. -/
theorem c4_tie_verdict (s : GameState) (r : BattleResult) (hand : List Card)
    (hw : r.winner_id = none) (hst : s.gameStatus = "active")
    (_hp1 : 0 < s.player.hp) (_hp2 : 0 < s.opponent.hp) :
    (handlePromptSubmit s (.ok r) (.ok hand)).player.hp = s.player.hp ∧
    (handlePromptSubmit s (.ok r) (.ok hand)).opponent.hp = s.opponent.hp ∧
    (handlePromptSubmit s (.ok r) (.ok hand)).battleHistory =
      s.battleHistory ++ [⟨r, s.battleHistory.length + 1⟩] ∧
    (handlePromptSubmit s (.ok r) (.ok hand)).currentTurn = s.currentTurn + 1 ∧
    (handlePromptSubmit s (.ok r) (.ok hand)).gameStatus = "active" := by
  refine ⟨?_, ?_, hps_ok_battleHistory s r (.ok hand),
    hps_ok_ok_currentTurn s r hand, ?_⟩
  · rw [hps_ok_player_hp]
    simp [hw]
  · rw [hps_ok_opponent_hp]
    simp [hw]
  · rw [hps_gameStatus, hst]

/-- Witness for C4: the tie scenario at the demo state. -/
theorem c4_tie_verdict_witness :
    (handlePromptSubmit demoState (.ok tieVerdict) (.ok [])).player.hp = 100 ∧
    (handlePromptSubmit demoState (.ok tieVerdict) (.ok [])).opponent.hp = 100 ∧
    (handlePromptSubmit demoState (.ok tieVerdict) (.ok [])).currentTurn = 1 ∧
    (handlePromptSubmit demoState (.ok tieVerdict) (.ok [])).gameStatus = "active" := by
  have h := c4_tie_verdict demoState tieVerdict [] rfl rfl
    (by norm_num [demoState]) (by norm_num [demoState])
  norm_num [demoState] at h
  exact ⟨h.1, h.2.1, h.2.2.2.1, h.2.2.2.2⟩

/-- The spec's knockout scenario: the opponent enters the turn at 20 hp. -/
def lowHpState : GameState :=
  { demoState with opponent := { demoState.opponent with hp := 20 } }

/-- Counterexample to claim C5: in the knockout scenario (opponent at
20 hp, verdict winner player 1 with damage 25) the opponent's hp clamps to
exactly 0, yet the match status does not transition to `"finished"` — it
stays `"active"`.  The turn-resolution path never calls `setGameStatus`. -/
theorem c5_counterexample :
    (handlePromptSubmit lowHpState (.ok demoVerdict) (.ok [])).opponent.hp = 0 ∧
    (handlePromptSubmit lowHpState (.ok demoVerdict) (.ok [])).gameStatus ≠ "finished" ∧
    (handlePromptSubmit lowHpState (.ok demoVerdict) (.ok [])).gameStatus = "active" := by
  refine ⟨?_, ?_, ?_⟩
  · rw [hps_ok_opponent_hp]
    norm_num [demoVerdict, lowHpState, demoState, clampHP]
  · rw [hps_gameStatus]
    decide
  · rw [hps_gameStatus]
    rfl

/-- Claim C5 (amended): the observed turn-resolution path never transitions
the match status at all: `handlePromptSubmit` leaves `gameStatus` unchanged
for every oracle and hand outcome, including when a player's hp clamps to
exactly 0; and no double-defeat can arise in one turn, since a verdict
changes at most one player's hp. -/
theorem c5_amended_no_status_transition (s : GameState)
    (oracle : Except String BattleResult) (nh : Except String (List Card)) :
    (handlePromptSubmit s oracle nh).gameStatus = s.gameStatus ∧
    ((handlePromptSubmit s oracle nh).player.hp = s.player.hp ∨
     (handlePromptSubmit s oracle nh).opponent.hp = s.opponent.hp) := by
  refine ⟨hps_gameStatus s oracle nh, ?_⟩
  cases oracle with
  | error e =>
      exact Or.inl (by rw [(hps_err_frame s e nh).2.2.1])
  | ok r =>
      by_cases h1 : r.winner_id = some "player_1"
      · refine Or.inl ?_
        rw [hps_ok_player_hp]
        simp [h1]
      · by_cases h2 : r.winner_id = some "player_2"
        · refine Or.inr ?_
          rw [hps_ok_opponent_hp]
          simp [h2]
        · refine Or.inl ?_
          rw [hps_ok_player_hp]
          simp [h2]

/-- An out-of-range verdict: damage 75 exceeds the spec's [0, 50] bound. -/
def bigDamageVerdict : BattleResult := ⟨some "player_1", 75, "overkill"⟩

/-- A malformed verdict: the winner value is none of the accepted three. -/
def invalidWinnerVerdict : BattleResult := ⟨some "player_3", 10, "garbage"⟩

/-- Counterexample to claim C6: the client applies the oracle response with
no validation.  A damage of 75 (outside [0, 50]) is subtracted as-is,
taking the opponent from 100 to 25 hp (a [0, 50] coercion could never take
hp below 50 in one hit from 100); and a `winner_id` outside the three
accepted values is not rejected as malformed — the response is applied via
the tie branch, still appending to the history and advancing the turn. -/
theorem c6_counterexample :
    (handlePromptSubmit demoState (.ok bigDamageVerdict) (.ok [])).opponent.hp = 25 ∧
    (handlePromptSubmit demoState (.ok invalidWinnerVerdict) (.ok [])).currentTurn = 1 ∧
    (handlePromptSubmit demoState
      (.ok invalidWinnerVerdict) (.ok [])).battleHistory.length = 1 ∧
    (handlePromptSubmit demoState (.ok invalidWinnerVerdict) (.ok [])).player.hp = 100 ∧
    (handlePromptSubmit demoState (.ok invalidWinnerVerdict) (.ok [])).opponent.hp = 100 := by
  refine ⟨?_, ?_, ?_, ?_, ?_⟩
  · rw [hps_ok_opponent_hp]
    norm_num [bigDamageVerdict, demoState, clampHP]
  · rw [hps_ok_ok_currentTurn]
    rfl
  · rw [hps_ok_battleHistory]
    rfl
  · rw [hps_ok_player_hp]
    decide
  · rw [hps_ok_opponent_hp]
    decide

/-- Claim C6 (amended): no validation of the oracle response happens
before it is applied: every successful response is folded into the match
state — history appended and turn advanced unconditionally — with
`damage_dealt` used as-is (only the resulting hp is clamped into [0, 100],
never the damage into [0, 50]), and any `winner_id` other than
`'player_1'` / `'player_2'` handled by the tie branch rather than being
rejected as malformed. -/
theorem c6_amended_no_validation (s : GameState) (r : BattleResult) (hand : List Card) :
    (handlePromptSubmit s (.ok r) (.ok hand)).battleHistory.length =
      s.battleHistory.length + 1 ∧
    (handlePromptSubmit s (.ok r) (.ok hand)).currentTurn = s.currentTurn + 1 ∧
    (handlePromptSubmit s (.ok r) (.ok hand)).opponent.hp =
      (if r.winner_id = some "player_1" then clampHP (s.opponent.hp - r.damage_dealt)
       else s.opponent.hp) ∧
    (handlePromptSubmit s (.ok r) (.ok hand)).player.hp =
      (if r.winner_id = some "player_2" then clampHP (s.player.hp - r.damage_dealt)
       else s.player.hp) := by
  refine ⟨?_, hps_ok_ok_currentTurn s r hand,
    hps_ok_opponent_hp s r (.ok hand), hps_ok_player_hp s r (.ok hand)⟩
  rw [hps_ok_battleHistory]
  simp

/-- Modelled from the spec: the Rating Service's expected-score formula.
The Elo update (`updateRatings`) is implemented in the backend
(`GameService`, "Elo rating system (K-factor = 32)" per STATUS.md), which
is not among the available frontend sources; only the store's `elo_rating`
fields appear there.  Following §4.3 of the spec:
`E = 1 / (1 + 10 ^ ((R_loser - R_winner) / 400))`. -/
noncomputable def expectedScore (rWinner rLoser : ℝ) : ℝ :=
  1 / (1 + (10 : ℝ) ^ ((rLoser - rWinner) / 400))

/-- Modelled from the spec: `updateRatings(winner, loser, kFactor)` returns
`(R_winner + K * (1 - E), R_loser + K * (0 - (1 - E)))` for a decisive
outcome. -/
noncomputable def updateRatings (rWinner rLoser kFactor : ℝ) : ℝ × ℝ :=
  (rWinner + kFactor * (1 - expectedScore rWinner rLoser),
   rLoser + kFactor * (0 - (1 - expectedScore rWinner rLoser)))

/-- Modelled from the spec: on a tie, both players' updates use an actual
score of 0.5, each against their own expected score. -/
noncomputable def updateRatingsTie (rA rB kFactor : ℝ) : ℝ × ℝ :=
  (rA + kFactor * (0.5 - expectedScore rA rB),
   rB + kFactor * (0.5 - expectedScore rB rA))

theorem expectedScore_add_symm (x y : ℝ) :
    expectedScore x y + expectedScore y x = 1 := by
  unfold expectedScore
  have hxy : (x - y) / 400 = -((y - x) / 400) := by ring
  rw [hxy, Real.rpow_neg (by norm_num : (0 : ℝ) ≤ 10)]
  have ht : (0 : ℝ) < (10 : ℝ) ^ ((y - x) / 400) :=
    Real.rpow_pos_of_pos (by norm_num) _
  have h1 : (1 : ℝ) + (10 : ℝ) ^ ((y - x) / 400) ≠ 0 := by positivity
  have h2 : (1 : ℝ) + ((10 : ℝ) ^ ((y - x) / 400))⁻¹ ≠ 0 := by positivity
  field_simp
  ring

/-- Claim C7: the Elo rating update is zero-sum under a fixed K-factor.
For a decisive outcome, the winner's rating delta is the negation of the
loser's delta; on a tie, with both actual scores 0.5, the two deltas again
sum to zero because the two expected scores sum to 1. -/
theorem c7_elo_zero_sum (rW rL k : ℝ) :
    ((updateRatings rW rL k).1 - rW = -((updateRatings rW rL k).2 - rL)) ∧
    ((updateRatingsTie rW rL k).1 - rW = -((updateRatingsTie rW rL k).2 - rL)) := by
  constructor
  · simp only [updateRatings]
    ring
  · have hsum := expectedScore_add_symm rW rL
    simp only [updateRatingsTie]
    linear_combination -k * hsum

/-- A 501-character prompt, one character over the default textarea cap. -/
def longPrompt : String := String.mk (List.replicate 501 'a')

/-- A store state holding the over-length prompt and one selected card. -/
def longPromptState : GameState := { demoState with myPrompt := longPrompt }

set_option maxRecDepth 20000 in
/-- Counterexample to claim C8: a prompt over the 500-character limit is
not rejected at submit time.  The guard of `handleSubmit` checks only that
the trimmed prompt is nonempty and at least one card is selected, so a
501-character prompt passes the guard and the oracle call proceeds (the
turn advances).  The 500-character cap exists only as the textarea's
`maxLength` attribute. -/
theorem c8_counterexample :
    longPrompt.length = defaultMaxLength + 1 ∧
    handleSubmitFires longPrompt ["fire"] = true ∧
    (handleSubmit longPromptState (.ok demoVerdict) (.ok [])).currentTurn =
      longPromptState.currentTurn + 1 := by
  have hg : handleSubmitFires longPromptState.myPrompt
      longPromptState.mySelectedCards = true := by decide
  refine ⟨by decide, by decide, ?_⟩
  simp only [handleSubmit, hg, if_true]
  exact hps_ok_ok_currentTurn _ _ _

/-- A store state whose prompt is whitespace only. -/
def blankPromptState : GameState := { demoState with myPrompt := "   " }

/-- Claim C8 (amended): a submission with an empty or all-whitespace
prompt, or with zero selected cards, is rejected by the submit guard
before any oracle call and with no state mutation; prompt length, however,
is not checked in the submit path (the 500-character cap is only the
textarea's `maxLength` attribute). -/
theorem c8_amended_guard (s : GameState)
    (oracle : Except String BattleResult) (nh : Except String (List Card))
    (h : jsTrim s.myPrompt = "" ∨ s.mySelectedCards = []) :
    handleSubmit s oracle nh = s := by
  unfold handleSubmit handleSubmitFires
  rcases h with h | h <;> simp [h]

/-- Witness for the amended C8: a whitespace-only prompt leaves the state
untouched, oracle outcome notwithstanding. -/
theorem c8_amended_guard_witness :
    jsTrim "   " = "" ∧
    handleSubmit blankPromptState (.ok demoVerdict) (.ok []) = blankPromptState :=
  ⟨by decide, c8_amended_guard blankPromptState _ _ (Or.inl (by decide))⟩

/-- A store state with two selected cards, the toggled one first. -/
def twoCardState : GameState := { demoState with mySelectedCards := ["a", "b"] }

/-- Counterexample to claim C9: toggling a card id twice need not restore
the selected-cards list even when the id occurs at most once beforehand.
From `["a", "b"]`, toggling `"a"` removes it (`["b"]`) and toggling again
appends it at the end (`["b", "a"]`), which differs from the original
list. -/
theorem c9_counterexample :
    twoCardState.mySelectedCards.count "a" ≤ 1 ∧
    (toggleCardSelection (toggleCardSelection twoCardState "a") "a").mySelectedCards =
      ["b", "a"] ∧
    (toggleCardSelection (toggleCardSelection twoCardState "a") "a").mySelectedCards ≠
      twoCardState.mySelectedCards := by
  decide

/-- Claim C9 (amended): the double-toggle identity holds when the card id
is absent from the list beforehand: the first toggle appends the id and
the second removes it again, restoring the original list.  (When the id is
already present anywhere but last, the double toggle instead moves it to
the end.) -/
theorem c9_amended_toggle_twice (s : GameState) (cardId : String)
    (h : cardId ∉ s.mySelectedCards) :
    (toggleCardSelection s cardId).mySelectedCards = s.mySelectedCards ++ [cardId] ∧
    (toggleCardSelection (toggleCardSelection s cardId) cardId).mySelectedCards =
      s.mySelectedCards := by
  have hfilter : s.mySelectedCards.filter (fun id => id != cardId) =
      s.mySelectedCards := by
    refine List.filter_eq_self.mpr ?_
    intro a ha
    simp only [bne_iff_ne, ne_eq, decide_eq_true_eq]
    exact fun hEq => h (hEq ▸ ha)
  constructor
  · simp [toggleCardSelection, toggleCard, h]
  · simp [toggleCardSelection, toggleCard, h, List.filter_append, hfilter]

/-- Witness for the amended C9 at the demo state (selected cards
`["fire"]`, toggled id `"a"`). -/
theorem c9_amended_toggle_twice_witness :
    "a" ∉ demoState.mySelectedCards ∧
    (toggleCardSelection (toggleCardSelection demoState "a") "a").mySelectedCards =
      demoState.mySelectedCards :=
  ⟨by decide, (c9_amended_toggle_twice demoState "a" (by decide)).2⟩

/-- Claim C10: `incrementTurn` increases the turn counter by exactly 1 and
resets the per-turn submission state (prompt, selected cards, both
has-submitted flags), while leaving both players (hp, elo and all), the
battle history, the game id and the game status unchanged. -/
theorem c10_incrementTurn_frame (s : GameState) :
    (incrementTurn s).currentTurn = s.currentTurn + 1 ∧
    (incrementTurn s).myPrompt = "" ∧
    (incrementTurn s).mySelectedCards = [] ∧
    (incrementTurn s).hasSubmitted = false ∧
    (incrementTurn s).opponentHasSubmitted = false ∧
    (incrementTurn s).player = s.player ∧
    (incrementTurn s).opponent = s.opponent ∧
    (incrementTurn s).battleHistory = s.battleHistory ∧
    (incrementTurn s).gameId = s.gameId ∧
    (incrementTurn s).gameStatus = s.gameStatus := by
  simp [incrementTurn]

end PromptWars
